import Mathlib

/-!
Verification of the session-lifecycle and monitoring-event core of the
exam-proctor backend (`ExternalCallMonitoringService` and its HTTP
controller).  The service keeps an in-memory active-session map and two
durable collections (sessions, keyed by a unique `sessionId`, and an
append-only monitoring-event collection).  Each `async` service method is
embedded as one atomic big-step function; the outcome of the single durable
write a method performs is an explicit `dbOk : Bool` parameter, and wall
clock / uuid generation are explicit arguments.
-/

namespace ExamProctor

/-- Time stamps (`new Date()`) are modelled as abstract ticks. -/
abbrev Time := Nat

/-- Session status enumeration from `types/index.ts`. -/
inductive SessionStatus where
  | active
  | paused
  | ended
  | recording
deriving DecidableEq, Repr

/-- Suspicious-activity kind tags from `types/index.ts`. -/
inductive ActivityType where
  | gaze_away
  | multiple_voices
  | window_switch
  | face_not_detected
deriving DecidableEq, Repr

/-- Severity levels from `types/index.ts`. -/
inductive Severity where
  | low
  | medium
  | high
deriving DecidableEq, Repr

/-- Structure `GazeTrackingData` from `types/index.ts`; JS numbers are modelled as ℚ. -/
structure GazeTrackingData where
  x : ℚ
  y : ℚ
  confidence : ℚ
  lookingAway : Bool
  duration : ℚ
deriving DecidableEq, Repr

/-- Structure `AudioAnalysisData` from `types/index.ts`. -/
structure AudioAnalysisData where
  volume : ℚ
  frequency : List ℚ
  multipleVoices : Bool
  backgroundNoise : ℚ
deriving DecidableEq, Repr

/-- Structure `SuspiciousActivity` from `types/index.ts`. -/
structure SuspiciousActivity where
  type : ActivityType
  severity : Severity
  timestamp : Time
  description : String
  confidence : ℚ
deriving DecidableEq, Repr

/-- The `recordingPaths` map of a session (each entry optional). -/
structure RecordingPaths where
  video : Option String
  audio : Option String
  screen : Option String
deriving DecidableEq, Repr

/-- Structure `ProctorSession` from `types/index.ts`.  `callPlatform` is a runtime
string (the TS union type is erased at runtime); `metadata` is opaque. -/
structure ProctorSession where
  id : String
  userId : String
  externalCallId : String
  callPlatform : String
  status : SessionStatus
  startTime : Time
  endTime : Option Time
  recordingPaths : RecordingPaths
  metadata : String
deriving DecidableEq, Repr

/-- Structure `CallMonitoringData` from `types/index.ts`. -/
structure CallMonitoringData where
  sessionId : String
  timestamp : Time
  gazeData : Option GazeTrackingData
  audioData : Option AudioAnalysisData
  suspiciousActivity : List SuspiciousActivity
deriving DecidableEq, Repr

/-! ### The in-memory `Map<string, ProctorSession>` as an association list -/

/-- Operation `Map.get`. -/
def mget {α : Type} : List (String × α) → String → Option α
  | [], _ => none
  | (k0, v) :: rest, k => if k = k0 then some v else mget rest k

/-- Operation `Map.set`: replace in place if the key exists, append otherwise. -/
def mset {α : Type} : List (String × α) → String → α → List (String × α)
  | [], k, v => [(k, v)]
  | (k0, v0) :: rest, k, v =>
    if k = k0 then (k0, v) :: rest else (k0, v0) :: mset rest k v

/-- Operation `Map.delete`. -/
def mdel {α : Type} : List (String × α) → String → List (String × α)
  | [], _ => []
  | (k0, v0) :: rest, k => if k = k0 then mdel rest k else (k0, v0) :: mdel rest k

/-! ### Service state -/

/-- Whole observable state of the service: the in-memory `activeSessions`
map plus the two durable collections (`ProctorSessionModel`,
`CallMonitoringDataModel`), each in insertion order. -/
structure ServiceState where
  activeSessions : List (String × ProctorSession)
  dbSessions : List ProctorSession
  dbEvents : List CallMonitoringData
deriving DecidableEq, Repr

/-- Freshly constructed service: empty map, empty collections. -/
def initState : ServiceState := ⟨[], [], []⟩

/-- Errors the service surfaces: the `Session ... not found` throw and any
durable-storage failure. -/
inductive SvcError where
  | sessionNotFound (sessionId : String)
  | storageError
deriving DecidableEq, Repr

/-- The fixed platform enumeration of the mongoose schema
(`enum` of `zoom`, `meet`, `teams`, `other`). -/
def validPlatform (p : String) : Bool :=
  p == "zoom" || p == "meet" || p == "teams" || p == "other"

/-- Mongoose document validation for `ProctorSessionSchema`: the required
string fields must be non-empty and `callPlatform` must be in the enum. -/
def sessionDocValid (s : ProctorSession) : Bool :=
  s.id != "" && s.userId != "" && s.externalCallId != "" && validPlatform s.callPlatform

/-- Saving via `sessionDoc.save()` succeeds iff storage is up, the document passes
schema validation, and the unique index on `sessionId` is not violated. -/
def saveSessionOk (st : ServiceState) (s : ProctorSession) (dbOk : Bool) : Bool :=
  dbOk && sessionDocValid s && st.dbSessions.all (fun d => d.id != s.id)

/-! ### `ExternalCallMonitoringService` operations -/

/-- The session object `startProctoring` builds: status `active`, start
time now, no end time, empty recording paths. -/
def mkSession (userId externalCallId callPlatform metadata uuid : String)
    (now : Time) : ProctorSession :=
  { id := uuid, userId := userId, externalCallId := externalCallId,
    callPlatform := callPlatform, status := SessionStatus.active,
    startTime := now, endTime := none,
    recordingPaths := ⟨none, none, none⟩, metadata := metadata }

/-- Method `startProctoring(userId, externalCallId, callPlatform, metadata)`.
Builds the session, saves the durable document, and only then registers the
session in the in-memory map; a failing save throws before the map is
touched. -/
def startProctoring (st : ServiceState)
    (userId externalCallId callPlatform metadata : String)
    (uuid : String) (now : Time) (dbOk : Bool) :
    Except SvcError ProctorSession × ServiceState :=
  let session := mkSession userId externalCallId callPlatform metadata uuid now
  if saveSessionOk st session dbOk then
    (Except.ok session,
      { st with
        dbSessions := st.dbSessions ++ [session],
        activeSessions := mset st.activeSessions uuid session })
  else
    (Except.error SvcError.storageError, st)

/-- Update performed by the mongoose `findOneAndUpdate` call of
`endProctoring`: set status `ended` and the end time on the first durable
document matching the session id, a no-op when none matches. -/
def dbUpdateEnd : List ProctorSession → String → Time → List ProctorSession
  | [], _, _ => []
  | d :: ds, sid, now =>
    if d.id = sid then
      { d with status := SessionStatus.ended, endTime := some now } :: ds
    else
      d :: dbUpdateEnd ds sid now

/-- Method `endProctoring(sessionId)`.  Throws `Session not found` when the id is
not in the active map.  Otherwise it first mutates the in-memory session
(status := ended, endTime := now), then awaits the durable update, and only
on success deletes the entry from the active map; a storage failure leaves
the mutated session registered. -/
def endProctoring (st : ServiceState) (sessionId : String) (now : Time)
    (dbOk : Bool) : Option SvcError × ServiceState :=
  match mget st.activeSessions sessionId with
  | none => (some (SvcError.sessionNotFound sessionId), st)
  | some session =>
    let session2 := { session with status := SessionStatus.ended, endTime := some now }
    let stMem := { st with activeSessions := mset st.activeSessions sessionId session2 }
    if dbOk then
      (none,
        { stMem with
          dbSessions := dbUpdateEnd stMem.dbSessions sessionId now,
          activeSessions := mdel stMem.activeSessions sessionId })
    else
      (some SvcError.storageError, stMem)

/-- The classification rules of `recordMonitoringData`: gaze rule first
(`lookingAway && duration > 5000` → medium `gaze_away` with the sample's
confidence), then audio rule (`multipleVoices` → high `multiple_voices`
with fixed confidence 0.8). -/
def classify (gazeData : Option GazeTrackingData)
    (audioData : Option AudioAnalysisData) (now : Time) :
    List SuspiciousActivity :=
  (match gazeData with
   | some g =>
     if g.lookingAway && decide ((5000 : ℚ) < g.duration) then
       [{ type := ActivityType.gaze_away, severity := Severity.medium,
          timestamp := now,
          description := "User looked away for " ++ toString g.duration ++ "ms",
          confidence := g.confidence }]
     else []
   | none => []) ++
  (match audioData with
   | some a =>
     if a.multipleVoices then
       [{ type := ActivityType.multiple_voices, severity := Severity.high,
          timestamp := now,
          description := "Multiple voices detected in audio",
          confidence := (8 : ℚ) / 10 }]
     else []
   | none => [])

/-- The `CallMonitoringData` document built by `recordMonitoringData`. -/
def mkMonitoringEvent (sessionId : String) (gazeData : Option GazeTrackingData)
    (audioData : Option AudioAnalysisData) (now : Time) : CallMonitoringData :=
  { sessionId := sessionId, timestamp := now, gazeData := gazeData,
    audioData := audioData, suspiciousActivity := classify gazeData audioData now }

/-- Method `recordMonitoringData(sessionId, gazeData?, audioData?)`.  Throws
`Session not found` for an id not in the active map; otherwise classifies
the samples and appends one document to the durable event collection (a
storage failure persists nothing and changes no state). -/
def recordMonitoringData (st : ServiceState) (sessionId : String)
    (gazeData : Option GazeTrackingData) (audioData : Option AudioAnalysisData)
    (now : Time) (dbOk : Bool) : Option SvcError × ServiceState :=
  match mget st.activeSessions sessionId with
  | none => (some (SvcError.sessionNotFound sessionId), st)
  | some _ =>
    if dbOk then
      (none, { st with
        dbEvents := st.dbEvents ++ [mkMonitoringEvent sessionId gazeData audioData now] })
    else
      (some SvcError.storageError, st)

/-- Method `getSessionStatus(sessionId)`: active-map lookup only. -/
def getSessionStatus (st : ServiceState) (sessionId : String) :
    Option ProctorSession :=
  mget st.activeSessions sessionId

/-- Method `getAllActiveSessions()`: snapshot of the active map's values. -/
def getAllActiveSessions (st : ServiceState) : List ProctorSession :=
  st.activeSessions.map Prod.snd

/-- Method `getSessionHistory(userId)`: the durable query by user id. -/
def getSessionHistory (st : ServiceState) (userId : String) :
    List ProctorSession :=
  st.dbSessions.filter (fun d => d.userId == userId)

/-! ### Traces of service operations -/

/-- One invocation of a service method, together with the environment
inputs it consumes (uuid, clock tick, storage outcome). -/
inductive Op where
  | start (userId externalCallId callPlatform metadata uuid : String)
      (now : Time) (dbOk : Bool)
  | endP (sessionId : String) (now : Time) (dbOk : Bool)
  | record (sessionId : String) (gazeData : Option GazeTrackingData)
      (audioData : Option AudioAnalysisData) (now : Time) (dbOk : Bool)
  | status (sessionId : String)
  | listActive
  | history (userId : String)
deriving DecidableEq, Repr

/-- State transformer of one operation (the read-only queries do not
mutate state). -/
def step (st : ServiceState) : Op → ServiceState
  | Op.start u e c m uuid now dbOk => (startProctoring st u e c m uuid now dbOk).2
  | Op.endP sid now dbOk => (endProctoring st sid now dbOk).2
  | Op.record sid g a now dbOk => (recordMonitoringData st sid g a now dbOk).2
  | Op.status _ => st
  | Op.listActive => st
  | Op.history _ => st

/-- Run a trace of operations from the freshly constructed service. -/
def run (ops : List Op) : ServiceState := ops.foldl step initState

/-! ### HTTP handler for `startSession` (`controllers/proctorSession.ts`) -/

/-- Request body of the start-session endpoint; each field may be absent. -/
structure StartRequestBody where
  userId : Option String
  externalCallId : Option String
  callPlatform : Option String
  metadata : Option String
deriving DecidableEq, Repr

/-- JS truthiness of an optional string field (`undefined`/`null`/`""` are
falsy). -/
def truthy : Option String → Bool
  | none => false
  | some s => s != ""

/-- The `startSession` handler after authentication: missing required
field → 400 with no service call; otherwise it calls `startProctoring`,
answering 200 on success and 500 on any thrown error. -/
def startSessionHandler (st : ServiceState) (body : StartRequestBody)
    (uuid : String) (now : Time) (dbOk : Bool) : Nat × ServiceState :=
  if !(truthy body.userId) || !(truthy body.externalCallId) ||
      !(truthy body.callPlatform) then
    (400, st)
  else
    match startProctoring st (body.userId.getD "") (body.externalCallId.getD "")
        (body.callPlatform.getD "") (body.metadata.getD "") uuid now dbOk with
    | (Except.ok _, st2) => (200, st2)
    | (Except.error _, st2) => (500, st2)

/-- Invariant connecting the in-memory map and the durable collection:
durable statuses are only `active`/`ended`; a durable `ended` record's id
is absent from the active map; every active-map key has a durable record. -/
def Inv (st : ServiceState) : Prop :=
  (∀ d ∈ st.dbSessions,
     d.status = SessionStatus.active ∨ d.status = SessionStatus.ended)
  ∧ (∀ d ∈ st.dbSessions, d.status = SessionStatus.ended →
       mget st.activeSessions d.id = none)
  ∧ (∀ k s, mget st.activeSessions k = some s → ∃ d ∈ st.dbSessions, d.id = k)

/-! ### Lemmas about the map operations -/

theorem mget_mset_self {α : Type} (m : List (String × α)) (k : String) (v : α) :
    mget (mset m k v) k = some v := by
  induction m with
  | nil => simp [mset, mget]
  | cons p rest ih =>
    obtain ⟨k0, v0⟩ := p
    by_cases h : k = k0
    · simp [mset, mget, h]
    · simp [mset, mget, h, ih]

theorem mget_mset_ne {α : Type} (m : List (String × α)) (k k2 : String) (v : α)
    (h : k2 ≠ k) : mget (mset m k v) k2 = mget m k2 := by
  induction m with
  | nil => simp [mset, mget, h]
  | cons p rest ih =>
    obtain ⟨k0, v0⟩ := p
    by_cases hk : k = k0
    · subst hk
      simp [mset, mget, h]
    · by_cases hk2 : k2 = k0
      · simp [mset, mget, hk, hk2]
      · simp [mset, mget, hk, hk2, ih]

theorem mget_mdel_self {α : Type} (m : List (String × α)) (k : String) :
    mget (mdel m k) k = none := by
  induction m with
  | nil => simp [mdel, mget]
  | cons p rest ih =>
    obtain ⟨k0, v0⟩ := p
    by_cases h : k = k0
    · subst h
      simp [mdel, ih]
    · simp [mdel, mget, h, ih]

theorem mget_mdel_ne {α : Type} (m : List (String × α)) (k k2 : String)
    (h : k2 ≠ k) : mget (mdel m k) k2 = mget m k2 := by
  induction m with
  | nil => simp [mdel]
  | cons p rest ih =>
    obtain ⟨k0, v0⟩ := p
    by_cases hk : k = k0
    · subst hk
      simp [mdel, mget, h, ih]
    · by_cases hk2 : k2 = k0
      · simp [mdel, mget, hk, hk2]
      · simp [mdel, mget, hk, hk2, ih]

theorem mget_mem_values {α : Type} (m : List (String × α)) (k : String) (v : α)
    (h : mget m k = some v) : v ∈ m.map Prod.snd := by
  induction m with
  | nil => simp [mget] at h
  | cons p rest ih =>
    obtain ⟨k0, v0⟩ := p
    by_cases hk : k = k0
    · simp [mget, hk] at h
      simp [h]
    · simp [mget, hk] at h
      simp [ih h]

/-! ### Lemmas about the durable-session update -/

theorem dbUpdateEnd_mem_of_ne (ds : List ProctorSession) (sid : String)
    (now : Time) (d : ProctorSession) (hd : d ∈ ds) (hne : d.id ≠ sid) :
    d ∈ dbUpdateEnd ds sid now := by
  induction ds with
  | nil => simp at hd
  | cons d0 rest ih =>
    rcases List.mem_cons.mp hd with h | h
    · subst h
      simp [dbUpdateEnd, hne]
    · by_cases h0 : d0.id = sid
      · simp [dbUpdateEnd, h0, h]
      · simp [dbUpdateEnd, h0]
        exact Or.inr (ih h)

theorem dbUpdateEnd_mem_rev (ds : List ProctorSession) (sid : String)
    (now : Time) (d2 : ProctorSession) (h : d2 ∈ dbUpdateEnd ds sid now) :
    d2 ∈ ds ∨ ∃ d ∈ ds, d.id = sid ∧
      d2 = { d with status := SessionStatus.ended, endTime := some now } := by
  induction ds with
  | nil => simp [dbUpdateEnd] at h
  | cons d0 rest ih =>
    by_cases h0 : d0.id = sid
    · simp [dbUpdateEnd, h0] at h
      rcases h with h | h
      · refine Or.inr ⟨d0, List.mem_cons_self d0 rest, h0, ?_⟩
        rw [h, h0]
      · exact Or.inl (List.mem_cons_of_mem d0 h)
    · simp [dbUpdateEnd, h0] at h
      rcases h with h | h
      · exact Or.inl (by simp [h])
      · rcases ih h with h2 | ⟨d, hd, hid, heq⟩
        · exact Or.inl (List.mem_cons_of_mem d0 h2)
        · exact Or.inr ⟨d, List.mem_cons_of_mem d0 hd, hid, heq⟩

theorem dbUpdateEnd_mem_or (ds : List ProctorSession) (sid : String)
    (now : Time) (d : ProctorSession) (hd : d ∈ ds) :
    d ∈ dbUpdateEnd ds sid now ∨
      (d.id = sid ∧
        { d with status := SessionStatus.ended, endTime := some now }
          ∈ dbUpdateEnd ds sid now) := by
  induction ds with
  | nil => simp at hd
  | cons d0 rest ih =>
    rcases List.mem_cons.mp hd with h | h
    · subst h
      by_cases h0 : d.id = sid
      · exact Or.inr ⟨h0, by simp [dbUpdateEnd, h0]⟩
      · exact Or.inl (by simp [dbUpdateEnd, h0])
    · by_cases h0 : d0.id = sid
      · exact Or.inl (by simp [dbUpdateEnd, h0, h])
      · rcases ih h with h2 | ⟨hid, h2⟩
        · exact Or.inl (by simp [dbUpdateEnd, h0]; exact Or.inr h2)
        · exact Or.inr ⟨hid, by simp [dbUpdateEnd, h0]; exact Or.inr h2⟩

theorem dbUpdateEnd_append_fresh (ds : List ProctorSession)
    (s : ProctorSession) (now : Time) (hfresh : ∀ d ∈ ds, d.id ≠ s.id) :
    dbUpdateEnd (ds ++ [s]) s.id now
      = ds ++ [{ s with status := SessionStatus.ended, endTime := some now }] := by
  induction ds with
  | nil => simp [dbUpdateEnd]
  | cons d0 rest ih =>
    have h0 : d0.id ≠ s.id := hfresh d0 (List.mem_cons_self d0 rest)
    have ih2 := ih (fun d hd => hfresh d (List.mem_cons_of_mem d0 hd))
    simp only [List.cons_append, dbUpdateEnd, h0, if_false, List.append_eq]
    rw [ih2]

/-! ### Reachability invariant -/

theorem inv_init : Inv initState := by
  refine ⟨?_, ?_, ?_⟩ <;> simp [initState, mget]

theorem inv_step (st : ServiceState) (op : Op) (h : Inv st) :
    Inv (step st op) := by
  obtain ⟨hA, hB, hC⟩ := h
  cases op with
  | start u e c m uuid now dbOk =>
    simp only [step, startProctoring]
    by_cases hs : saveSessionOk st (mkSession u e c m uuid now) dbOk = true
    · rw [if_pos hs]
      have hfresh : ∀ d ∈ st.dbSessions, d.id ≠ uuid := by
        simp only [saveSessionOk, Bool.and_eq_true, List.all_eq_true,
          bne_iff_ne, mkSession] at hs
        exact hs.2
      refine ⟨?_, ?_, ?_⟩
      · intro d hd
        rcases List.mem_append.mp hd with h2 | h2
        · exact hA d h2
        · simp only [List.mem_singleton] at h2
          subst h2
          exact Or.inl rfl
      · intro d hd hend
        rcases List.mem_append.mp hd with h2 | h2
        · rw [mget_mset_ne _ _ _ _ (hfresh d h2)]
          exact hB d h2 hend
        · simp only [List.mem_singleton] at h2
          subst h2
          simp [mkSession] at hend
      · intro k s2 hk
        by_cases hku : k = uuid
        · exact ⟨mkSession u e c m uuid now, by simp, hku.symm⟩
        · rw [mget_mset_ne _ _ _ _ hku] at hk
          obtain ⟨d, hd, hdk⟩ := hC k s2 hk
          exact ⟨d, List.mem_append_left _ hd, hdk⟩
    · rw [if_neg hs]
      exact ⟨hA, hB, hC⟩
  | endP sid now dbOk =>
    simp only [step, endProctoring]
    cases hm : mget st.activeSessions sid with
    | none => exact ⟨hA, hB, hC⟩
    | some s0 =>
      dsimp only
      by_cases hdb : dbOk = true
      · rw [if_pos hdb]
        refine ⟨?_, ?_, ?_⟩
        · intro d hd
          rcases dbUpdateEnd_mem_rev _ _ _ d hd with h2 | ⟨d0, hd0, hid, heq⟩
          · exact hA d h2
          · subst heq
            exact Or.inr rfl
        · intro d hd hend
          rcases dbUpdateEnd_mem_rev _ _ _ d hd with h2 | ⟨d0, hd0, hid, heq⟩
          · have hds : d.id ≠ sid := by
              intro hds
              have h3 := hB d h2 hend
              rw [hds, hm] at h3
              exact Option.noConfusion h3
            rw [mget_mdel_ne _ _ _ hds, mget_mset_ne _ _ _ _ hds]
            exact hB d h2 hend
          · subst heq
            show mget _ d0.id = none
            rw [hid, mget_mdel_self]
        · intro k s2 hk
          by_cases hks : k = sid
          · subst hks
            rw [mget_mdel_self] at hk
            exact Option.noConfusion hk
          · rw [mget_mdel_ne _ _ _ hks, mget_mset_ne _ _ _ _ hks] at hk
            obtain ⟨d, hd, hdk⟩ := hC k s2 hk
            rcases dbUpdateEnd_mem_or _ sid now d hd with h2 | ⟨hid, h2⟩
            · exact ⟨d, h2, hdk⟩
            · exact ⟨_, h2, hdk⟩
      · rw [if_neg hdb]
        refine ⟨hA, ?_, ?_⟩
        · intro d hd hend
          have h0 := hB d hd hend
          have hds : d.id ≠ sid := by
            intro hds
            rw [hds, hm] at h0
            exact Option.noConfusion h0
          rw [mget_mset_ne _ _ _ _ hds]
          exact h0
        · intro k s2 hk
          by_cases hks : k = sid
          · rw [hks]
            exact hC sid s0 hm
          · rw [mget_mset_ne _ _ _ _ hks] at hk
            exact hC k s2 hk
  | record sid g a now dbOk =>
    simp only [step, recordMonitoringData]
    cases hm : mget st.activeSessions sid with
    | none => exact ⟨hA, hB, hC⟩
    | some s0 =>
      dsimp only
      by_cases hdb : dbOk = true
      · rw [if_pos hdb]
        exact ⟨hA, hB, hC⟩
      · rw [if_neg hdb]
        exact ⟨hA, hB, hC⟩
  | status sid => exact ⟨hA, hB, hC⟩
  | listActive => exact ⟨hA, hB, hC⟩
  | history u => exact ⟨hA, hB, hC⟩

theorem inv_foldl (ops : List Op) :
    ∀ st, Inv st → Inv (ops.foldl step st) := by
  induction ops with
  | nil => intro st h; exact h
  | cons op rest ih =>
    intro st h
    exact ih (step st op) (inv_step st op h)

theorem inv_run (ops : List Op) : Inv (run ops) :=
  inv_foldl ops initState inv_init

/-! ### Lemmas about the classification rules -/

theorem classify_gaze_count (g : GazeTrackingData) (a : Option AudioAnalysisData)
    (now : Time) :
    ((classify (some g) a now).filter
        (fun f => decide (f.type = ActivityType.gaze_away))).length
      = if g.lookingAway = true ∧ (5000 : ℚ) < g.duration then 1 else 0 := by
  rcases a with _ | a0
  · by_cases hla : g.lookingAway = true <;>
      by_cases hdur : (5000 : ℚ) < g.duration <;>
      simp [classify, hla, hdur]
  · by_cases hla : g.lookingAway = true <;>
      by_cases hdur : (5000 : ℚ) < g.duration <;>
      by_cases ha : a0.multipleVoices = true <;>
      simp [classify, hla, hdur, ha]

theorem classify_gaze_shape (g : GazeTrackingData) (a : Option AudioAnalysisData)
    (now : Time) :
    ∀ f ∈ classify (some g) a now, f.type = ActivityType.gaze_away →
      f.severity = Severity.medium ∧ f.confidence = g.confidence := by
  rcases a with _ | a0
  · by_cases hla : g.lookingAway = true <;>
      by_cases hdur : (5000 : ℚ) < g.duration <;>
      simp [classify, hla, hdur]
  · by_cases hla : g.lookingAway = true <;>
      by_cases hdur : (5000 : ℚ) < g.duration <;>
      by_cases ha : a0.multipleVoices = true <;>
      simp [classify, hla, hdur, ha]

theorem classify_mv_count (g : Option GazeTrackingData) (a : AudioAnalysisData)
    (now : Time) :
    ((classify g (some a) now).filter
        (fun f => decide (f.type = ActivityType.multiple_voices))).length
      = if a.multipleVoices = true then 1 else 0 := by
  rcases g with _ | g0
  · by_cases ha : a.multipleVoices = true <;> simp [classify, ha]
  · by_cases hc : (g0.lookingAway && decide ((5000 : ℚ) < g0.duration)) = true <;>
      by_cases ha : a.multipleVoices = true <;>
      simp [classify, hc, ha]

theorem classify_mv_shape (g : Option GazeTrackingData) (a : AudioAnalysisData)
    (now : Time) :
    ∀ f ∈ classify g (some a) now, f.type = ActivityType.multiple_voices →
      f.severity = Severity.high ∧ f.confidence = (8 : ℚ) / 10 := by
  rcases g with _ | g0
  · by_cases ha : a.multipleVoices = true <;> simp [classify, ha]
  · by_cases hc : (g0.lookingAway && decide ((5000 : ℚ) < g0.duration)) = true <;>
      by_cases ha : a.multipleVoices = true <;>
      simp [classify, hc, ha]

theorem classify_no_audio_no_mv (g : Option GazeTrackingData) (now : Time) :
    (classify g none now).filter
      (fun f => decide (f.type = ActivityType.multiple_voices)) = [] := by
  rcases g with _ | g0
  · simp [classify]
  · by_cases hc : (g0.lookingAway && decide ((5000 : ℚ) < g0.duration)) = true <;>
      simp [classify, hc]

theorem classify_no_gaze_no_ga (a : Option AudioAnalysisData) (now : Time) :
    (classify none a now).filter
      (fun f => decide (f.type = ActivityType.gaze_away)) = [] := by
  rcases a with _ | a0
  · simp [classify]
  · by_cases ha : a0.multipleVoices = true <;> simp [classify, ha]

theorem classify_length_le_two (g : Option GazeTrackingData)
    (a : Option AudioAnalysisData) (now : Time) :
    (classify g a now).length ≤ 2 := by
  rcases g with _ | g0 <;> rcases a with _ | a0
  · simp [classify]
  · by_cases ha : a0.multipleVoices = true <;> simp [classify, ha]
  · by_cases hc : (g0.lookingAway && decide ((5000 : ℚ) < g0.duration)) = true <;>
      simp [classify, hc]
  · by_cases hc : (g0.lookingAway && decide ((5000 : ℚ) < g0.duration)) = true <;>
      by_cases ha : a0.multipleVoices = true <;>
      simp [classify, hc, ha]

theorem classify_both_types (g : GazeTrackingData) (a : AudioAnalysisData)
    (now : Time) (hla : g.lookingAway = true) (hdur : (5000 : ℚ) < g.duration)
    (hmv : a.multipleVoices = true) :
    (classify (some g) (some a) now).map (fun f => f.type)
      = [ActivityType.gaze_away, ActivityType.multiple_voices] := by
  simp [classify, hla, hdur, hmv]

/-! ### Small facts about the operations, shared between claims -/

theorem end_not_found (st : ServiceState) (sid : String) (now : Time)
    (dbOk : Bool) (h : mget st.activeSessions sid = none) :
    endProctoring st sid now dbOk = (some (SvcError.sessionNotFound sid), st) := by
  simp [endProctoring, h]

theorem record_appends_event (st : ServiceState) (sid : String)
    (s : ProctorSession) (g : Option GazeTrackingData)
    (a : Option AudioAnalysisData) (now : Time)
    (h : mget st.activeSessions sid = some s) :
    recordMonitoringData st sid g a now true
      = (none, { st with
          dbEvents := st.dbEvents ++ [mkMonitoringEvent sid g a now] }) := by
  simp [recordMonitoringData, h]

theorem run_append_one (ops : List Op) (op : Op) :
    run (ops ++ [op]) = step (run ops) op := by
  simp [run, List.foldl_append]

/-- One-step lifecycle preservation under the invariant: durable records
survive every operation with at most a forward `active → ended` transition
that touches only `status`/`endTime`, an `ended` durable record is left
untouched, and an in-memory `ended` session never leaves status `ended`. -/
theorem lifecycle_step (st : ServiceState) (hInv : Inv st) (op : Op) :
    (∀ d ∈ st.dbSessions,
      ∃ d2 ∈ (step st op).dbSessions,
        d2.id = d.id
        ∧ (d2 = d ∨ (d.status = SessionStatus.active ∧
            ∃ t, d2 = { d with status := SessionStatus.ended, endTime := some t }))
        ∧ (d.status = SessionStatus.ended → d2 = d))
    ∧ (∀ k s, mget st.activeSessions k = some s →
        s.status = SessionStatus.ended →
        ∀ s2, mget (step st op).activeSessions k = some s2 →
          s2.status = SessionStatus.ended) := by
  obtain ⟨hA, hB, hC⟩ := hInv
  constructor
  · intro d hd
    cases op with
    | start u e c m uuid now dbOk =>
      simp only [step, startProctoring]
      by_cases hs : saveSessionOk st (mkSession u e c m uuid now) dbOk = true
      · rw [if_pos hs]
        exact ⟨d, List.mem_append_left _ hd, rfl, Or.inl rfl, fun _ => rfl⟩
      · rw [if_neg hs]
        exact ⟨d, hd, rfl, Or.inl rfl, fun _ => rfl⟩
    | endP sid now dbOk =>
      simp only [step, endProctoring]
      cases hm : mget st.activeSessions sid with
      | none => exact ⟨d, hd, rfl, Or.inl rfl, fun _ => rfl⟩
      | some s0 =>
        dsimp only
        by_cases hdb : dbOk = true
        · rw [if_pos hdb]
          rcases dbUpdateEnd_mem_or st.dbSessions sid now d hd with h2 | ⟨hid, h2⟩
          · exact ⟨d, h2, rfl, Or.inl rfl, fun _ => rfl⟩
          · have hdne : d.status ≠ SessionStatus.ended := by
              intro hend
              have h3 := hB d hd hend
              rw [hid, hm] at h3
              exact Option.noConfusion h3
            have hdact : d.status = SessionStatus.active :=
              (hA d hd).resolve_right hdne
            exact ⟨_, h2, rfl, Or.inr ⟨hdact, now, rfl⟩,
              fun hend => absurd hend hdne⟩
        · rw [if_neg hdb]
          exact ⟨d, hd, rfl, Or.inl rfl, fun _ => rfl⟩
    | record sid g a now dbOk =>
      simp only [step, recordMonitoringData]
      cases hm : mget st.activeSessions sid with
      | none => exact ⟨d, hd, rfl, Or.inl rfl, fun _ => rfl⟩
      | some s0 =>
        dsimp only
        by_cases hdb : dbOk = true
        · rw [if_pos hdb]
          exact ⟨d, hd, rfl, Or.inl rfl, fun _ => rfl⟩
        · rw [if_neg hdb]
          exact ⟨d, hd, rfl, Or.inl rfl, fun _ => rfl⟩
    | status sid => exact ⟨d, hd, rfl, Or.inl rfl, fun _ => rfl⟩
    | listActive => exact ⟨d, hd, rfl, Or.inl rfl, fun _ => rfl⟩
    | history u => exact ⟨d, hd, rfl, Or.inl rfl, fun _ => rfl⟩
  · intro k s hk hend s2
    cases op with
    | start u e c m uuid now dbOk =>
      simp only [step, startProctoring]
      by_cases hs : saveSessionOk st (mkSession u e c m uuid now) dbOk = true
      · rw [if_pos hs]
        intro hk2
        by_cases hku : k = uuid
        · exfalso
          obtain ⟨d, hd, hdk⟩ := hC k s hk
          have hfresh : ∀ d0 ∈ st.dbSessions, d0.id ≠ uuid := by
            simp only [saveSessionOk, Bool.and_eq_true, List.all_eq_true,
              bne_iff_ne, mkSession] at hs
            exact hs.2
          exact hfresh d hd (hku ▸ hdk)
        · rw [mget_mset_ne _ _ _ _ hku, hk] at hk2
          rw [(Option.some.inj hk2).symm]
          exact hend
      · rw [if_neg hs]
        intro hk2
        rw [hk] at hk2
        rw [(Option.some.inj hk2).symm]
        exact hend
    | endP sid now dbOk =>
      simp only [step, endProctoring]
      cases hm : mget st.activeSessions sid with
      | none =>
        intro hk2
        rw [hk] at hk2
        rw [(Option.some.inj hk2).symm]
        exact hend
      | some s0 =>
        dsimp only
        by_cases hdb : dbOk = true
        · rw [if_pos hdb]
          intro hk2
          by_cases hks : k = sid
          · rw [hks, mget_mdel_self] at hk2
            exact Option.noConfusion hk2
          · rw [mget_mdel_ne _ _ _ hks, mget_mset_ne _ _ _ _ hks, hk] at hk2
            rw [(Option.some.inj hk2).symm]
            exact hend
        · rw [if_neg hdb]
          intro hk2
          by_cases hks : k = sid
          · rw [hks, mget_mset_self] at hk2
            rw [(Option.some.inj hk2).symm]
          · rw [mget_mset_ne _ _ _ _ hks, hk] at hk2
            rw [(Option.some.inj hk2).symm]
            exact hend
    | record sid g a now dbOk =>
      simp only [step, recordMonitoringData]
      cases hm : mget st.activeSessions sid with
      | none =>
        intro hk2
        rw [hk] at hk2
        rw [(Option.some.inj hk2).symm]
        exact hend
      | some s0 =>
        dsimp only
        by_cases hdb : dbOk = true
        · rw [if_pos hdb]
          intro hk2
          rw [hk] at hk2
          rw [(Option.some.inj hk2).symm]
          exact hend
        · rw [if_neg hdb]
          intro hk2
          rw [hk] at hk2
          rw [(Option.some.inj hk2).symm]
          exact hend
    | status sid =>
      intro hk2
      simp only [step] at hk2
      rw [hk] at hk2
      rw [(Option.some.inj hk2).symm]
      exact hend
    | listActive =>
      intro hk2
      simp only [step] at hk2
      rw [hk] at hk2
      rw [(Option.some.inj hk2).symm]
      exact hend
    | history u =>
      intro hk2
      simp only [step] at hk2
      rw [hk] at hk2
      rw [(Option.some.inj hk2).symm]
      exact hend

/-! ### Claims -/

/-- Claim C1 (amended): over every trace of service operations, no durable
session record is ever deleted (a record with its id persists), a durable
record changes at most by the forward transition `active → ended` touching
only `status` and `endTime`, a durable record that is already `ended` is
never modified again, and an in-memory session whose status is `ended`
never has its status changed away from `ended`.  (The original claim's
"no field other than recording paths changes once the status is `ended`"
holds for durable records but not for the in-memory copy: after a
storage-failing `endProctoring` leaves an `ended` session in the active
index, a retried `endProctoring` overwrites its end time — see the
counterexample.) -/
theorem C1_lifecycle_amended (ops : List Op) (op : Op) :
    (∀ d ∈ (run ops).dbSessions,
      ∃ d2 ∈ (run (ops ++ [op])).dbSessions,
        d2.id = d.id
        ∧ (d2 = d ∨ (d.status = SessionStatus.active ∧
            ∃ t, d2 = { d with status := SessionStatus.ended, endTime := some t }))
        ∧ (d.status = SessionStatus.ended → d2 = d))
    ∧ (∀ k s, mget (run ops).activeSessions k = some s →
        s.status = SessionStatus.ended →
        ∀ s2, mget (run (ops ++ [op])).activeSessions k = some s2 →
          s2.status = SessionStatus.ended) := by
  rw [run_append_one]
  exact lifecycle_step (run ops) (inv_run ops) op

/-- Claim C1 counterexample: start a session, let the durable update of a
first `endProctoring` fail (the session is then visible through
`getSessionStatus` with status `ended` and end time 1 while still in the
active index), then run a second `endProctoring`: it succeeds and the
surviving record of that same session carries end time 2 — a field other
than the recording paths changed by an operation executed after the
session's status was already `ended`. -/
theorem C1_lifecycle_counterexample :
    (getSessionStatus (run [Op.start "u1" "c1" "zoom" "m" "s1" 0 true,
        Op.endP "s1" 1 false]) "s1").map (fun s => (s.status, s.endTime))
      = some (SessionStatus.ended, some 1)
    ∧ (endProctoring (run [Op.start "u1" "c1" "zoom" "m" "s1" 0 true,
        Op.endP "s1" 1 false]) "s1" 2 true).1 = none
    ∧ ((run [Op.start "u1" "c1" "zoom" "m" "s1" 0 true, Op.endP "s1" 1 false,
        Op.endP "s1" 2 true]).dbSessions.map
          (fun d => (d.id, d.status, d.endTime)))
      = [("s1", SessionStatus.ended, some 2)] := by
  decide

/-- Witness for C1 at a concrete trace: the durable record of a started
session survives an `endProctoring` step with a forward transition. -/
theorem C1_lifecycle_amended_witness :
    ∃ d2 ∈ (run ([Op.start "u1" "c1" "zoom" "m" "s1" 0 true]
        ++ [Op.endP "s1" 1 true])).dbSessions,
      d2.id = (mkSession "u1" "c1" "zoom" "m" "s1" 0).id
      ∧ (d2 = mkSession "u1" "c1" "zoom" "m" "s1" 0
          ∨ ((mkSession "u1" "c1" "zoom" "m" "s1" 0).status = SessionStatus.active ∧
            ∃ t, d2 = { mkSession "u1" "c1" "zoom" "m" "s1" 0 with
                status := SessionStatus.ended, endTime := some t }))
      ∧ ((mkSession "u1" "c1" "zoom" "m" "s1" 0).status = SessionStatus.ended →
          d2 = mkSession "u1" "c1" "zoom" "m" "s1" 0) :=
  (C1_lifecycle_amended [Op.start "u1" "c1" "zoom" "m" "s1" 0 true]
      (Op.endP "s1" 1 true)).1 (mkSession "u1" "c1" "zoom" "m" "s1" 0) (by decide)

/-- Claim C2: a `recordMonitoringData` call on an active session that
carries a gaze sample appends one event whose findings contain a
`gaze_away` finding — severity `medium`, confidence equal to the sample's
confidence — iff the sample has `lookingAway` true and duration strictly
greater than 5000 ms, and never more than one such finding. -/
theorem C2_gaze_away_rule (st : ServiceState) (sid : String)
    (s : ProctorSession) (g : GazeTrackingData) (a : Option AudioAnalysisData)
    (now : Time) (h : mget st.activeSessions sid = some s) :
    (recordMonitoringData st sid (some g) a now true).2.dbEvents
      = st.dbEvents ++ [mkMonitoringEvent sid (some g) a now]
    ∧ ((mkMonitoringEvent sid (some g) a now).suspiciousActivity.filter
          (fun f => decide (f.type = ActivityType.gaze_away))).length
        = (if g.lookingAway = true ∧ (5000 : ℚ) < g.duration then 1 else 0)
    ∧ (∀ f ∈ (mkMonitoringEvent sid (some g) a now).suspiciousActivity,
        f.type = ActivityType.gaze_away →
          f.severity = Severity.medium ∧ f.confidence = g.confidence) :=
  ⟨by simp [recordMonitoringData, h], classify_gaze_count g a now,
   classify_gaze_shape g a now⟩

/-- Witness for C2: `lookingAway = true` with duration 6000 yields exactly
one `gaze_away` finding; duration 4000 yields none. -/
theorem C2_gaze_away_rule_witness :
    ((mkMonitoringEvent "s1" (some ⟨0, 0, 9/10, true, 6000⟩) none 5).suspiciousActivity.filter
        (fun f => decide (f.type = ActivityType.gaze_away))).length = 1
    ∧ ((mkMonitoringEvent "s1" (some ⟨0, 0, 9/10, true, 4000⟩) none 5).suspiciousActivity.filter
        (fun f => decide (f.type = ActivityType.gaze_away))).length = 0 := by
  constructor
  · have h := (C2_gaze_away_rule ⟨[("s1", mkSession "u1" "c1" "zoom" "m" "s1" 0)],
        [mkSession "u1" "c1" "zoom" "m" "s1" 0], []⟩ "s1"
        (mkSession "u1" "c1" "zoom" "m" "s1" 0) ⟨0, 0, 9/10, true, 6000⟩ none 5
        (by decide)).2.1
    rw [h]
    decide
  · have h := (C2_gaze_away_rule ⟨[("s1", mkSession "u1" "c1" "zoom" "m" "s1" 0)],
        [mkSession "u1" "c1" "zoom" "m" "s1" 0], []⟩ "s1"
        (mkSession "u1" "c1" "zoom" "m" "s1" 0) ⟨0, 0, 9/10, true, 4000⟩ none 5
        (by decide)).2.1
    rw [h]
    decide

/-- Claim C3: a record call on an active session that carries an audio
sample appends one event whose findings contain a `multiple_voices`
finding — severity `high`, fixed confidence 0.8 — iff the sample's
`multipleVoices` is true, whatever the other audio fields hold; with no
audio sample no `multiple_voices` finding is produced. -/
theorem C3_multiple_voices_rule (st : ServiceState) (sid : String)
    (s : ProctorSession) (g : Option GazeTrackingData) (a : AudioAnalysisData)
    (now : Time) (h : mget st.activeSessions sid = some s) :
    (recordMonitoringData st sid g (some a) now true).2.dbEvents
      = st.dbEvents ++ [mkMonitoringEvent sid g (some a) now]
    ∧ ((mkMonitoringEvent sid g (some a) now).suspiciousActivity.filter
          (fun f => decide (f.type = ActivityType.multiple_voices))).length
        = (if a.multipleVoices = true then 1 else 0)
    ∧ (∀ f ∈ (mkMonitoringEvent sid g (some a) now).suspiciousActivity,
        f.type = ActivityType.multiple_voices →
          f.severity = Severity.high ∧ f.confidence = (8 : ℚ) / 10)
    ∧ (∀ g2, ((mkMonitoringEvent sid g2 none now).suspiciousActivity.filter
          (fun f => decide (f.type = ActivityType.multiple_voices))) = []) :=
  ⟨by simp [recordMonitoringData, h], classify_mv_count g a now,
   classify_mv_shape g a now, fun g2 => classify_no_audio_no_mv g2 now⟩

/-- Witness for C3: `multipleVoices = true` with arbitrary other audio
fields yields exactly one `multiple_voices` finding, severity `high`,
confidence 0.8. -/
theorem C3_multiple_voices_rule_witness :
    ((mkMonitoringEvent "s1" none (some ⟨1/2, [1, 2, 3], true, 1/4⟩) 5).suspiciousActivity.filter
        (fun f => decide (f.type = ActivityType.multiple_voices))).length = 1
    ∧ (∀ f ∈ (mkMonitoringEvent "s1" none
          (some ⟨1/2, [1, 2, 3], true, 1/4⟩) 5).suspiciousActivity,
        f.type = ActivityType.multiple_voices →
          f.severity = Severity.high ∧ f.confidence = (8 : ℚ) / 10) := by
  have h := C3_multiple_voices_rule ⟨[("s1", mkSession "u1" "c1" "zoom" "m" "s1" 0)],
      [mkSession "u1" "c1" "zoom" "m" "s1" 0], []⟩ "s1"
      (mkSession "u1" "c1" "zoom" "m" "s1" 0) none ⟨1/2, [1, 2, 3], true, 1/4⟩ 5
      (by decide)
  refine ⟨?_, h.2.2.1⟩
  rw [h.2.1]
  decide

/-- Claim C4: with both a qualifying gaze sample and a qualifying audio
sample the recorded event carries exactly two findings, `gaze_away` before
`multiple_voices`; an event never carries more than two findings, and
omitting a sample suppresses the corresponding finding. -/
theorem C4_both_findings_order (st : ServiceState) (sid : String)
    (s : ProctorSession) (g : GazeTrackingData) (a : AudioAnalysisData)
    (now : Time) (h : mget st.activeSessions sid = some s)
    (hla : g.lookingAway = true) (hdur : (5000 : ℚ) < g.duration)
    (hmv : a.multipleVoices = true) :
    (recordMonitoringData st sid (some g) (some a) now true).2.dbEvents
      = st.dbEvents ++ [mkMonitoringEvent sid (some g) (some a) now]
    ∧ (mkMonitoringEvent sid (some g) (some a) now).suspiciousActivity.map
        (fun f => f.type)
      = [ActivityType.gaze_away, ActivityType.multiple_voices]
    ∧ (∀ g2 a2, ((mkMonitoringEvent sid g2 a2 now).suspiciousActivity).length ≤ 2)
    ∧ (∀ a2, ((mkMonitoringEvent sid none a2 now).suspiciousActivity.filter
          (fun f => decide (f.type = ActivityType.gaze_away))) = [])
    ∧ (∀ g2, ((mkMonitoringEvent sid g2 none now).suspiciousActivity.filter
          (fun f => decide (f.type = ActivityType.multiple_voices))) = []) :=
  ⟨by simp [recordMonitoringData, h], classify_both_types g a now hla hdur hmv,
   fun g2 a2 => classify_length_le_two g2 a2 now,
   fun a2 => classify_no_gaze_no_ga a2 now,
   fun g2 => classify_no_audio_no_mv g2 now⟩

/-- Witness for C4: a qualifying gaze sample and a qualifying audio sample
produce the two findings in gaze-then-audio order. -/
theorem C4_both_findings_order_witness :
    (mkMonitoringEvent "s1" (some ⟨0, 0, 9/10, true, 7000⟩)
        (some ⟨1/2, [], true, 0⟩) 5).suspiciousActivity.map (fun f => f.type)
      = [ActivityType.gaze_away, ActivityType.multiple_voices] :=
  (C4_both_findings_order ⟨[("s1", mkSession "u1" "c1" "zoom" "m" "s1" 0)],
      [mkSession "u1" "c1" "zoom" "m" "s1" 0], []⟩ "s1"
      (mkSession "u1" "c1" "zoom" "m" "s1" 0) ⟨0, 0, 9/10, true, 7000⟩
      ⟨1/2, [], true, 0⟩ 5 (by decide) rfl (by decide) rfl).2.1

/-- Claim C5: `recordMonitoringData` on an identifier that is not in the
active-session index — never created or already ended — fails with
`SessionNotFound` and leaves the durable event collection and all other
state untouched. -/
theorem C5_record_unknown_atomic (st : ServiceState) (sid : String)
    (g : Option GazeTrackingData) (a : Option AudioAnalysisData)
    (now : Time) (dbOk : Bool) (h : mget st.activeSessions sid = none) :
    recordMonitoringData st sid g a now dbOk
      = (some (SvcError.sessionNotFound sid), st) := by
  simp [recordMonitoringData, h]

/-- Witness for C5 at the fresh service state. -/
theorem C5_record_unknown_atomic_witness :
    recordMonitoringData initState "nope" none none 0 true
      = (some (SvcError.sessionNotFound "nope"), initState) :=
  C5_record_unknown_atomic initState "nope" none none 0 true rfl

/-- Claim C6: `endProctoring` on any identifier not in the active index —
never created or already ended — fails with `SessionNotFound`; on an active
identifier a first `endProctoring` (with the durable update succeeding)
returns no error, and an immediately repeated `endProctoring` on the same
identifier fails with `SessionNotFound`. -/
theorem C6_end_not_found_double_end (st : ServiceState) (sid : String)
    (now now2 : Time) (dbOk : Bool) :
    (mget st.activeSessions sid = none →
      endProctoring st sid now dbOk
        = (some (SvcError.sessionNotFound sid), st))
    ∧ (∀ s, mget st.activeSessions sid = some s →
        (endProctoring st sid now true).1 = none ∧
        endProctoring (endProctoring st sid now true).2 sid now2 dbOk
          = (some (SvcError.sessionNotFound sid),
             (endProctoring st sid now true).2)) := by
  refine ⟨fun h => end_not_found st sid now dbOk h, fun s h => ?_⟩
  have h2 : mget (endProctoring st sid now true).2.activeSessions sid = none := by
    simp [endProctoring, h, mget_mdel_self]
  exact ⟨by simp [endProctoring, h], end_not_found _ sid now2 dbOk h2⟩

/-- Witness for C6: ending a never-created identifier fails; ending a
started session succeeds once and fails the second time. -/
theorem C6_end_not_found_double_end_witness :
    endProctoring initState "ghost" 3 true
      = (some (SvcError.sessionNotFound "ghost"), initState)
    ∧ ((endProctoring (run [Op.start "u1" "c1" "zoom" "m" "s1" 0 true])
          "s1" 1 true).1 = none
      ∧ endProctoring (endProctoring (run [Op.start "u1" "c1" "zoom" "m" "s1" 0 true])
            "s1" 1 true).2 "s1" 2 true
          = (some (SvcError.sessionNotFound "s1"),
             (endProctoring (run [Op.start "u1" "c1" "zoom" "m" "s1" 0 true])
               "s1" 1 true).2)) :=
  ⟨(C6_end_not_found_double_end initState "ghost" 3 3 true).1 rfl,
   (C6_end_not_found_double_end (run [Op.start "u1" "c1" "zoom" "m" "s1" 0 true])
       "s1" 1 2 true).2 (mkSession "u1" "c1" "zoom" "m" "s1" 0) (by decide)⟩

/-- Claim C7: for a session created by a successful `startProctoring`
(durable write succeeds), after `endProctoring` on its identifier succeeds,
`getSessionStatus` for that identifier returns nothing (not found via the
active-index lookup) while `getSessionHistory` for the owning user still
includes the session with status `ended` and a non-null end time. -/
theorem C7_end_visibility (st : ServiceState) (u e c m uuid : String)
    (now now2 : Time)
    (hsave : saveSessionOk st (mkSession u e c m uuid now) true = true) :
    (startProctoring st u e c m uuid now true).1
      = Except.ok (mkSession u e c m uuid now)
    ∧ (endProctoring (startProctoring st u e c m uuid now true).2
        (mkSession u e c m uuid now).id now2 true).1 = none
    ∧ getSessionStatus (endProctoring (startProctoring st u e c m uuid now true).2
        (mkSession u e c m uuid now).id now2 true).2
        (mkSession u e c m uuid now).id = none
    ∧ ∃ d ∈ getSessionHistory (endProctoring (startProctoring st u e c m uuid now true).2
          (mkSession u e c m uuid now).id now2 true).2
          (mkSession u e c m uuid now).userId,
        d.id = (mkSession u e c m uuid now).id
        ∧ d.status = SessionStatus.ended ∧ d.endTime = some now2 := by
  have hfresh : ∀ d ∈ st.dbSessions, d.id ≠ (mkSession u e c m uuid now).id := by
    simp only [saveSessionOk, Bool.and_eq_true, List.all_eq_true,
      bne_iff_ne] at hsave
    exact hsave.2
  have hst1 : (startProctoring st u e c m uuid now true).2
      = { st with
          dbSessions := st.dbSessions ++ [mkSession u e c m uuid now],
          activeSessions := mset st.activeSessions uuid (mkSession u e c m uuid now) } := by
    simp [startProctoring, hsave]
  have hm1 : mget (startProctoring st u e c m uuid now true).2.activeSessions
      (mkSession u e c m uuid now).id = some (mkSession u e c m uuid now) := by
    rw [hst1]
    exact mget_mset_self st.activeSessions uuid (mkSession u e c m uuid now)
  have hupd : dbUpdateEnd (st.dbSessions ++ [mkSession u e c m uuid now])
      (mkSession u e c m uuid now).id now2
      = st.dbSessions ++ [{ mkSession u e c m uuid now with
          status := SessionStatus.ended, endTime := some now2 }] :=
    dbUpdateEnd_append_fresh st.dbSessions (mkSession u e c m uuid now) now2 hfresh
  refine ⟨by simp [startProctoring, hsave], by simp [endProctoring, hm1], ?_, ?_⟩
  · simp [endProctoring, hm1, getSessionStatus, mget_mdel_self]
  · have hdb : (endProctoring (startProctoring st u e c m uuid now true).2
        (mkSession u e c m uuid now).id now2 true).2.dbSessions
        = st.dbSessions ++ [{ mkSession u e c m uuid now with
            status := SessionStatus.ended, endTime := some now2 }] := by
      rw [hst1] at hm1 ⊢
      simp [endProctoring, hm1, hupd, hst1]
    refine ⟨{ mkSession u e c m uuid now with
        status := SessionStatus.ended, endTime := some now2 }, ?_, rfl, rfl, rfl⟩
    rw [getSessionHistory, hdb]
    simp [mkSession]

/-- Witness for C7 at concrete inputs. -/
theorem C7_end_visibility_witness :
    (startProctoring initState "u1" "c1" "zoom" "m" "s1" 0 true).1
      = Except.ok (mkSession "u1" "c1" "zoom" "m" "s1" 0)
    ∧ (endProctoring (startProctoring initState "u1" "c1" "zoom" "m" "s1" 0 true).2
        (mkSession "u1" "c1" "zoom" "m" "s1" 0).id 1 true).1 = none
    ∧ getSessionStatus (endProctoring (startProctoring initState "u1" "c1" "zoom" "m" "s1" 0 true).2
        (mkSession "u1" "c1" "zoom" "m" "s1" 0).id 1 true).2
        (mkSession "u1" "c1" "zoom" "m" "s1" 0).id = none
    ∧ ∃ d ∈ getSessionHistory (endProctoring (startProctoring initState "u1" "c1" "zoom" "m" "s1" 0 true).2
          (mkSession "u1" "c1" "zoom" "m" "s1" 0).id 1 true).2
          (mkSession "u1" "c1" "zoom" "m" "s1" 0).userId,
        d.id = (mkSession "u1" "c1" "zoom" "m" "s1" 0).id
        ∧ d.status = SessionStatus.ended ∧ d.endTime = some 1 :=
  C7_end_visibility initState "u1" "c1" "zoom" "m" "s1" 0 1 (by decide)

/-- Claim C8: `startProctoring` is all-or-nothing with respect to the
active-session index: a failing durable write reports a storage error and
leaves the whole state — in particular the index — unchanged; a successful
write returns the new session and registers it in the index with status
`active`. -/
theorem C8_start_all_or_nothing (st : ServiceState)
    (u e c m uuid : String) (now : Time) (dbOk : Bool) :
    (saveSessionOk st (mkSession u e c m uuid now) dbOk = false →
      startProctoring st u e c m uuid now dbOk
        = (Except.error SvcError.storageError, st))
    ∧ (saveSessionOk st (mkSession u e c m uuid now) dbOk = true →
      startProctoring st u e c m uuid now dbOk
        = (Except.ok (mkSession u e c m uuid now),
           { st with
             dbSessions := st.dbSessions ++ [mkSession u e c m uuid now],
             activeSessions := mset st.activeSessions uuid
               (mkSession u e c m uuid now) })
      ∧ (mkSession u e c m uuid now).status = SessionStatus.active
      ∧ mget (startProctoring st u e c m uuid now dbOk).2.activeSessions uuid
          = some (mkSession u e c m uuid now)) := by
  constructor
  · intro h
    simp [startProctoring, h]
  · intro h
    refine ⟨by simp [startProctoring, h], rfl, ?_⟩
    simp [startProctoring, h, mget_mset_self]

/-- Witness for C8: a failing write changes nothing; a successful write
registers the active session. -/
theorem C8_start_all_or_nothing_witness :
    startProctoring initState "u1" "c1" "zoom" "m" "s1" 0 false
      = (Except.error SvcError.storageError, initState)
    ∧ mget (startProctoring initState "u1" "c1" "zoom" "m" "s1" 0 true).2.activeSessions
        "s1" = some (mkSession "u1" "c1" "zoom" "m" "s1" 0) :=
  ⟨(C8_start_all_or_nothing initState "u1" "c1" "zoom" "m" "s1" 0 false).1 (by decide),
   ((C8_start_all_or_nothing initState "u1" "c1" "zoom" "m" "s1" 0 true).2 (by decide)).2.2⟩

/-- Claim C10: `endProctoring` is not all-or-nothing: on a storage failure
the error propagates while the session stays in the active index already
mutated to status `ended` with its end time set — `getSessionStatus` then
returns the ended session and `getAllActiveSessions` still lists it — and
the durable collections are unchanged. -/
theorem C10_end_not_atomic (st : ServiceState) (sid : String)
    (s : ProctorSession) (now : Time)
    (h : mget st.activeSessions sid = some s) :
    (endProctoring st sid now false).1 = some SvcError.storageError
    ∧ getSessionStatus (endProctoring st sid now false).2 sid
        = some { s with status := SessionStatus.ended, endTime := some now }
    ∧ { s with status := SessionStatus.ended, endTime := some now }
        ∈ getAllActiveSessions (endProctoring st sid now false).2
    ∧ (endProctoring st sid now false).2.dbSessions = st.dbSessions
    ∧ (endProctoring st sid now false).2.dbEvents = st.dbEvents := by
  have h1 : (endProctoring st sid now false).2.activeSessions
      = mset st.activeSessions sid
          { s with status := SessionStatus.ended, endTime := some now } := by
    simp [endProctoring, h]
  refine ⟨by simp [endProctoring, h], ?_, ?_,
    by simp [endProctoring, h], by simp [endProctoring, h]⟩
  · rw [getSessionStatus, h1]
    exact mget_mset_self _ _ _
  · rw [getAllActiveSessions]
    exact mget_mem_values _ sid _ (by rw [h1]; exact mget_mset_self _ _ _)

/-- Witness for C10 after one started session. -/
theorem C10_end_not_atomic_witness :
    (endProctoring (run [Op.start "u1" "c1" "zoom" "m" "s1" 0 true]) "s1" 1 false).1
      = some SvcError.storageError
    ∧ getSessionStatus (endProctoring (run [Op.start "u1" "c1" "zoom" "m" "s1" 0 true])
          "s1" 1 false).2 "s1"
        = some { mkSession "u1" "c1" "zoom" "m" "s1" 0 with
            status := SessionStatus.ended, endTime := some 1 }
    ∧ { mkSession "u1" "c1" "zoom" "m" "s1" 0 with
          status := SessionStatus.ended, endTime := some 1 }
        ∈ getAllActiveSessions (endProctoring (run [Op.start "u1" "c1" "zoom" "m" "s1" 0 true])
            "s1" 1 false).2
    ∧ (endProctoring (run [Op.start "u1" "c1" "zoom" "m" "s1" 0 true]) "s1" 1 false).2.dbSessions
        = (run [Op.start "u1" "c1" "zoom" "m" "s1" 0 true]).dbSessions
    ∧ (endProctoring (run [Op.start "u1" "c1" "zoom" "m" "s1" 0 true]) "s1" 1 false).2.dbEvents
        = (run [Op.start "u1" "c1" "zoom" "m" "s1" 0 true]).dbEvents :=
  C10_end_not_atomic (run [Op.start "u1" "c1" "zoom" "m" "s1" 0 true]) "s1"
    (mkSession "u1" "c1" "zoom" "m" "s1" 0) 1 (by decide)

/-- Claim C9 counterexample: a start request whose `callPlatform` is
present but outside the enumeration (`"skype"`) is not rejected as a client
error: the handler performs no runtime enumeration check, the durable
schema validation makes the save throw, and the catch-all answers 500 — a
server error, not a 4xx — though no session is created or registered. -/
theorem C9_validation_counterexample :
    startSessionHandler initState
      { userId := some "u1", externalCallId := some "c1",
        callPlatform := some "skype", metadata := none } "s1" 0 true
      = (500, initState) := by
  decide

/-- Claim C9 (amended): a start request missing `userId`, `externalCallId`
or `callPlatform` (absent or empty) is answered 400 with no session
created; a request whose `callPlatform` is present but outside the fixed
enumeration `{zoom, meet, teams, other}` never creates or registers a
session either, but it is rejected by the durable schema validation and
surfaces as a 500 storage error (or as 400 when another field is also
missing), not as a 4xx enumeration check in the handler. -/
theorem C9_validation_amended (st : ServiceState) (body : StartRequestBody)
    (uuid : String) (now : Time) (dbOk : Bool) :
    ((truthy body.userId = false ∨ truthy body.externalCallId = false
        ∨ truthy body.callPlatform = false) →
      startSessionHandler st body uuid now dbOk = (400, st))
    ∧ (∀ p, body.callPlatform = some p → validPlatform p = false →
        startSessionHandler st body uuid now dbOk = (400, st)
        ∨ startSessionHandler st body uuid now dbOk = (500, st)) := by
  constructor
  · intro h
    rcases h with h | h | h <;> simp [startSessionHandler, h]
  · intro p hp hvp
    by_cases hmiss : (!(truthy body.userId) || !(truthy body.externalCallId) ||
        !(truthy body.callPlatform)) = true
    · left
      rw [startSessionHandler, if_pos hmiss]
    · right
      have hsave : saveSessionOk st (mkSession (body.userId.getD "")
          (body.externalCallId.getD "") (body.callPlatform.getD "")
          (body.metadata.getD "") uuid now) dbOk = false := by
        simp [saveSessionOk, sessionDocValid, mkSession, hp, hvp]
      rw [startSessionHandler, if_neg hmiss]
      simp [startProctoring, hsave]

/-- Witness for C9: a request with no `userId` is answered 400 and creates
nothing; a request with the out-of-enumeration platform `"skype"` is
answered without creating a session. -/
theorem C9_validation_amended_witness :
    startSessionHandler initState
      { userId := none, externalCallId := some "c1",
        callPlatform := some "zoom", metadata := none } "s1" 0 true
      = (400, initState)
    ∧ (startSessionHandler initState
        { userId := some "u1", externalCallId := some "c1",
          callPlatform := some "skype", metadata := none } "s1" 0 true
        = (400, initState)
      ∨ startSessionHandler initState
          { userId := some "u1", externalCallId := some "c1",
            callPlatform := some "skype", metadata := none } "s1" 0 true
          = (500, initState)) :=
  ⟨(C9_validation_amended initState
      { userId := none, externalCallId := some "c1",
        callPlatform := some "zoom", metadata := none } "s1" 0 true).1
      (Or.inl rfl),
   (C9_validation_amended initState
      { userId := some "u1", externalCallId := some "c1",
        callPlatform := some "skype", metadata := none } "s1" 0 true).2
      "skype" rfl (by decide)⟩

end ExamProctor
